import Mathlib

/-!
# Verification of the HTML → YOOtheme page-builder converter

Shallow embedding of `src/utils/joomlaConverter.ts` (class `JoomlaConverter`).

The browser's `DOMParser.parseFromString` is external to the repository; the
converter is therefore modelled over the parsed document tree (`Node`).  All
definitions below are translated from the TypeScript source.  DOM elements are
represented as *located* nodes (`Loc`): the node value together with its child
index path from the document root, so that the DOM identity-based operations
(`Element.contains`, ancestor queries) are faithful: `a.contains(b)` holds iff
`a`'s path is a prefix of `b`'s path.

JS string templates of the form `` `${number}%` `` (column widths) are modelled
by the constructor `SettingValue.pct` carrying the exact rational value of the
computed JS number; every equality or disequality fact proved about such widths
below (e.g. `100/3 ≠ 333/10`) also holds for the IEEE doubles the code computes
and for their JS string renderings.
-/

/-- JS truthiness for strings: `s || d` returns `d` when `s` is `""`. -/
def jsStrOr (s d : String) : String := if s = "" then d else s

/-- JS `x || d` where `x` is a nullable string (`getAttribute` result):
`null` and `""` are falsy. -/
def jsOptOr (s : Option String) (d : String) : String :=
  match s with
  | none => d
  | some v => jsStrOr v d

/-- JS `String.prototype.trim` (whitespace stripped from both ends),
implemented over the character list so that it evaluates by kernel
reduction. -/
def jsTrim (s : String) : String :=
  ⟨((s.data.dropWhile Char.isWhitespace).reverse.dropWhile
      Char.isWhitespace).reverse⟩

/-- `String.prototype.toLowerCase` (character-wise). -/
def strToLower (s : String) : String := ⟨s.data.map Char.toLower⟩

/-- JS `String.prototype.split(sep)` for a one-character separator. -/
def splitOnChar (sep : Char) : List Char → List (List Char)
  | [] => [[]]
  | c :: rest =>
    match splitOnChar sep rest with
    | [] => [[]]
    | seg :: segs =>
      if c = sep then [] :: seg :: segs else (c :: seg) :: segs

/-- `Array.prototype.join(sep)`. -/
def joinSep (sep : String) : List String → String
  | [] => ""
  | [x] => x
  | x :: xs => x ++ sep ++ joinSep sep xs

/-- Maximal runs of non-whitespace characters (the `DOMTokenList` view of a
`class` attribute). -/
def wsTokens : List Char → List String
  | [] => []
  | c :: cs =>
    if c.isWhitespace then wsTokens cs
    else
      match wsTokens cs, cs with
      | ts, [] => ⟨[c]⟩ :: ts
      | ts, c' :: _ =>
        if c'.isWhitespace then ⟨[c]⟩ :: ts
        else
          match ts with
          | [] => [⟨[c]⟩]
          | t :: rest => ⟨c :: t.data⟩ :: rest

/-- `sub` occurs at the front of `l`. -/
def listIsPrefix [DecidableEq α] : List α → List α → Bool
  | [], _ => true
  | _ :: _, [] => false
  | a :: as, b :: bs => a = b && listIsPrefix as bs

/-- `sub` occurs contiguously somewhere in `l`. -/
def listIsInfix [DecidableEq α] (sub : List α) : List α → Bool
  | [] => listIsPrefix sub []
  | l@(_ :: rest) => listIsPrefix sub l || listIsInfix sub rest

/-- JS `String.prototype.includes`. -/
def strIncludes (s sub : String) : Bool := listIsInfix sub.toList s.toList

/-- One DOM node: an element (tag, attributes, child nodes) or a text node.
Tags are stored lower-case, as the HTML parser produces them. -/
inductive Node where
  | elem (tag : String) (attrs : List (String × String)) (children : List Node)
  | text (s : String)

/-- `Element.getAttribute`: `none` models JS `null` (attribute absent). -/
def Node.getAttr (n : Node) (k : String) : Option String :=
  match n with
  | .elem _ attrs _ => (attrs.find? (fun p => p.1 = k)).map (·.2)
  | .text _ => none

/-- `Element.hasAttribute`. -/
def Node.hasAttr (n : Node) (k : String) : Bool := (n.getAttr k).isSome

/-- `element.className.toString()` / `element.classList.toString()`:
the raw value of the `class` attribute (empty string when absent). -/
def Node.className (n : Node) : String := jsOptOr (n.getAttr "class") ""

/-- The tokens of the `class` attribute (split on whitespace), as used by
CSS class selectors (`.hero`). -/
def Node.classTokens (n : Node) : List String := wsTokens n.className.data

def Node.childNodes (n : Node) : List Node :=
  match n with
  | .elem _ _ cs => cs
  | .text _ => []

def Node.tag (n : Node) : String :=
  match n with
  | .elem t _ _ => t
  | .text _ => ""

def Node.isElem (n : Node) : Bool :=
  match n with
  | .elem _ _ _ => true
  | .text _ => false

mutual
/-- `Node.textContent`: concatenation of all descendant text data. -/
def Node.textContent : Node → String
  | .text s => s
  | .elem _ _ cs => Node.textContentList cs

def Node.textContentList : List Node → String
  | [] => ""
  | c :: cs => Node.textContent c ++ Node.textContentList cs
end

/-- Node at a child-index path (indices range over all child nodes,
text nodes included). -/
def Node.at? (n : Node) : List Nat → Option Node
  | [] => some n
  | i :: rest =>
    match n.childNodes[i]? with
    | some c => c.at? rest
    | none => none

/-- A located element: a document node together with its path from the root.
Two located elements denote the same DOM element iff their paths are equal. -/
structure Loc where
  path : List Nat
  node : Node

/-- DOM `a.contains(b)` (inclusive containment) for located elements of the
same document: `b` lies in the subtree rooted at `a`. -/
def Loc.containsLoc (a b : Loc) : Bool := a.path.isPrefixOf b.path

mutual
/-- Element nodes of the subtree rooted at each node of `cs` (children of the
node at `path`, starting at child index `i`), in document (pre)order. -/
def descendantsList (path : List Nat) (i : Nat) : List Node → List Loc
  | [] => []
  | c :: cs => descendantsNode (path ++ [i]) c ++ descendantsList path (i + 1) cs

/-- The node itself (when an element) followed by its element descendants,
in document (pre)order. -/
def descendantsNode (path : List Nat) : Node → List Loc
  | .text _ => []
  | .elem t a cs => ⟨path, .elem t a cs⟩ :: descendantsList path 0 cs
end

/-- All elements of the document, in document order (root included). -/
def docElems (doc : Node) : List Loc := descendantsNode [] doc

/-- Element descendants of a located element, excluding the element itself
(the search scope of `element.querySelectorAll`). -/
def subElems (l : Loc) : List Loc := descendantsList l.path 0 l.node.childNodes

/-- List entries paired with their index, starting at `i`. -/
def withIdx (i : Nat) : List α → List (Nat × α)
  | [] => []
  | c :: cs => (i, c) :: withIdx (i + 1) cs

/-- Direct element children of a located element, with their paths
(`element.children`). -/
def childElems (l : Loc) : List Loc :=
  ((withIdx 0 l.node.childNodes).filter (fun p => p.2.isElem)).map
    (fun p => ⟨l.path ++ [p.1], p.2⟩)

/-- The CSS selectors the converter uses, as an abstract syntax. -/
inductive Sel where
  | tag (t : String)                       -- `div`
  | cls (c : String)                       -- `.hero`
  | tagCls (t c : String)                  -- `ul.menu`
  | attrSub (t : Option String) (k v : String)  -- `div[class*="section"]`
  | attrEq (t : Option String) (k v : String)   -- `[role="banner"]`
  | desc (anc dsc : Sel)                   -- `tbody tr`
  | univ                                   -- `*`

/-- Proper-ancestor located elements of a path in `doc` (root first). -/
def ancestorLocs (doc : Node) (path : List Nat) : List Loc :=
  (List.range path.length).filterMap (fun k =>
    match doc.at? (path.take k) with
    | some n => if n.isElem then some ⟨path.take k, n⟩ else none
    | none => none)

/-- `element.matches(selector)` for the selector fragment.  The descendant
combinator requires, besides a match of the right-hand part, some ancestor
of the element in the document matching the left-hand part. -/
def matchesSel (doc : Node) : Loc → Sel → Bool
  | l, .tag t => l.node.tag = t
  | l, .cls c => l.node.classTokens.contains c
  | l, .tagCls t c => l.node.tag = t && l.node.classTokens.contains c
  | l, .attrSub t k v =>
    (match t with | some t' => l.node.tag = t' | none => true) &&
      (match l.node.getAttr k with
       | some a => strIncludes a v
       | none => false)
  | l, .attrEq t k v =>
    (match t with | some t' => l.node.tag = t' | none => true) &&
      l.node.getAttr k = some v
  | l, .desc anc dsc =>
    matchesSel doc l dsc &&
      (ancestorLocs doc l.path).any (fun a => matchesSel doc a anc)
  | _, .univ => true

/-- `element.matches("s1, s2, …")`: any selector of the list matches. -/
def matchesAny (doc : Node) (l : Loc) (sels : List Sel) : Bool :=
  sels.any (matchesSel doc l)

/-- `doc.querySelectorAll("s1, s2, …")`: all matching elements in document
order. -/
def qsaDoc (doc : Node) (sels : List Sel) : List Loc :=
  (docElems doc).filter (fun l => matchesAny doc l sels)

/-- `element.querySelectorAll("s1, s2, …")`: matching descendants of `l`
(excluding `l` itself) in document order. -/
def qsa (doc : Node) (l : Loc) (sels : List Sel) : List Loc :=
  (subElems l).filter (fun e => matchesAny doc e sels)

/-- `element.querySelector(...)`: first match or `null`. -/
def qsel (doc : Node) (l : Loc) (sels : List Sel) : Option Loc :=
  (qsa doc l sels).head?

/-- `doc.querySelector(...)`. -/
def qselDoc (doc : Node) (sels : List Sel) : Option Loc :=
  (qsaDoc doc sels).head?

/-! ## Content discovery (`discoverContentElements` and friends) -/

/-- Selector list of `parseHtmlToSections` for the header:
`'header, nav, .header, .navbar, .nav-menu, [role="banner"]'`. -/
def headerSelectors : List Sel :=
  [.tag "header", .tag "nav", .cls "header", .cls "navbar", .cls "nav-menu",
   .attrEq none "role" "banner"]

/-- Selector list for the footer: `'footer, .footer, [role="contentinfo"]'`. -/
def footerSelectors : List Sel :=
  [.tag "footer", .cls "footer", .attrEq none "role" "contentinfo"]

/-- The ordered `contentSelectors` array of `discoverContentElements`. -/
def contentSelectors : List Sel :=
  [.tag "main", .tag "section", .tag "article",
   .attrSub (some "div") "class" "section", .attrSub (some "div") "class" "content",
   .attrSub (some "div") "class" "container", .attrSub (some "div") "class" "wrapper",
   .attrSub (some "div") "class" "row",
   .attrSub (some "div") "id" "section", .attrSub (some "div") "id" "content",
   .cls "hero", .cls "banner", .cls "feature",
   .cls "testimonial", .cls "gallery", .cls "portfolio", .cls "about",
   .cls "service", .cls "product",
   .tag "aside", .cls "sidebar", .cls "widget", .cls "block", .tag "form",
   .tag "table", .cls "card",
   .tagCls "ul" "menu", .tagCls "ul" "list", .tag "dl", .cls "accordion",
   .cls "tabs", .cls "carousel"]

/-- `hasSignificantContent`. -/
def hasSignificantContent (doc : Node) (l : Loc) : Bool :=
  let text := jsTrim l.node.textContent
  let hasImages := (qsa doc l [.tag "img"]).length > 0
  let hasMedia := (qsa doc l [.tag "video", .tag "audio", .tag "iframe"]).length > 0
  let hasForm :=
    (qsa doc l [.tag "form", .tag "input", .tag "textarea", .tag "select"]).length > 0
  text.length > 20 || hasImages || hasMedia || hasForm

/-- `isNestedElement`: `element` is contained in, or contains, an element
already accepted. -/
def isNestedElement (element : Loc) (existingElements : List Loc) : Bool :=
  existingElements.any (fun existing =>
    existing.containsLoc element || element.containsLoc existing)

/-- One `found.forEach` step of `discoverContentElements`: push the candidate
iff it is neither nested with an accepted element nor insignificant. -/
def discoverStep (doc : Node) (elements : List Loc) (el : Loc) : List Loc :=
  if !isNestedElement el elements && hasSignificantContent doc el then
    elements ++ [el]
  else elements

/-- `discoverContentElements`: the selectors are queried one after the other
(per-selector document order) and the results filtered against the running
accepted list. -/
def discoverContentElements (doc : Node) : List Loc :=
  (contentSelectors.flatMap (fun sel => qsaDoc doc [sel])).foldl (discoverStep doc) []

/-- The `breakSelectors` of `isVisualSectionBreak`, each paired with the result
of `selector.replace('.', '')` used for the class-substring test. -/
def breakSelectors : List (Sel × String) :=
  [(.tag "section", "section"), (.tag "article", "article"), (.tag "main", "main"),
   (.cls "hero", "hero"), (.cls "banner", "banner")]

/-- `isVisualSectionBreak`. -/
def isVisualSectionBreak (doc : Node) (element : Loc) (previousElement : Option Loc) :
    Bool :=
  match previousElement with
  | none => true
  | some _ =>
    breakSelectors.any (fun p =>
      matchesSel doc element p.1 || strIncludes element.node.className p.2)

/-- The `elements.forEach` loop of `groupContentByVisualSections`, returning
the pushed groups and the final running group. -/
def groupLoop (doc : Node) :
    List Loc → Option Loc → List Loc → List (List Loc) →
      List (List Loc) × List Loc
  | [], _, currentGroup, groups => (groups, currentGroup)
  | e :: rest, prev, currentGroup, groups =>
    if isVisualSectionBreak doc e prev && !currentGroup.isEmpty then
      groupLoop doc rest (some e) [e] (groups ++ [currentGroup])
    else
      groupLoop doc rest (some e) (currentGroup ++ [e]) groups

/-- `groupContentByVisualSections`.  Note the final
`groups.length > 0 ? groups : [elements]`: for an empty input list this
returns `[[]]`, a single empty group. -/
def groupContentByVisualSections (doc : Node) (elements : List Loc) :
    List (List Loc) :=
  let r := groupLoop doc elements none [] []
  let groups := if !r.2.isEmpty then r.1 ++ [r.2] else r.1
  if !groups.isEmpty then groups else [elements]

/-- `isContentElement`: content tag and no self-or-ancestor
`nav/header/footer/script/style` (DOM `closest` inspects the element itself
and all its ancestors). -/
def isContentElement (doc : Node) (l : Loc) : Bool :=
  let contentTags := ["p", "h1", "h2", "h3", "h4", "h5", "h6", "div", "span",
    "article", "section"]
  let closestSels : List Sel :=
    [.tag "nav", .tag "header", .tag "footer", .tag "script", .tag "style"]
  contentTags.contains l.node.tag &&
    !(matchesAny doc l closestSels ||
      (ancestorLocs doc l.path).any (fun a => matchesAny doc a closestSels))

/-- `extractBodyContent`: a `TreeWalker` over the first `body` element,
collecting (in document order, `body` itself excluded) every element that is a
content element with significant content; `FILTER_SKIP` still descends into
children, so this is a plain pre-order filter. -/
def extractBodyContent (doc : Node) : List Loc :=
  match qselDoc doc [.tag "body"] with
  | some body =>
    (subElems body).filter (fun l =>
      isContentElement doc l && hasSignificantContent doc l)
  | none => []

/-! ## Content extraction (`extractComprehensiveContent`) -/

/-- One form-field descriptor, as built inside the `forms.forEach` loop. -/
structure FormInput where
  type : String
  name : String
  placeholder : String
  required : Bool
deriving DecidableEq, Repr

/-- The transient content items pushed by `extractComprehensiveContent`
(a discriminated union on the `type` string in the source; each carries the
originating element).  `media` covers the `video`/`audio`/`iframe` items whose
`type` is the tag name. -/
inductive ContentItem where
  | heading (element : Loc) (content : String) (tag : String) (level : Nat)
  | text (element : Loc) (content : String)
  | image (element : Loc) (src alt : String) (width height : Option String)
  | list (element : Loc) (items : List String) (ordered : Bool)
  | button (element : Loc) (content href style : String)
  | form (element : Loc) (action method : String) (inputs : List FormInput)
  | table (element : Loc) (headers : List String) (rows : List (List String))
  | media (element : Loc) (tag src : String) (width height : Option String)

/-- JS `parseInt` on a string that starts with digits: value of the leading
digit run (the only use site is `parseInt(heading.tagName.substring(1))`,
always applied to `"1"`…`"6"`). -/
def jsParseIntNat (s : String) : Nat :=
  ((s.toList.takeWhile Char.isDigit).map (fun c => c.toNat - 48)).foldl
    (fun acc d => acc * 10 + d) 0

/-- `determineButtonStyle`. -/
def determineButtonStyle (element : Loc) : String :=
  let className := strToLower element.node.className
  if strIncludes className "primary" || strIncludes className "main" then "primary"
  else if strIncludes className "secondary" then "secondary"
  else if strIncludes className "outline" then "outline"
  else if strIncludes className "ghost" then "text"
  else "default"

/-- The selector list for buttons:
`'button, a[class*="btn"], .button, input[type="submit"]'`. -/
def buttonSelectors : List Sel :=
  [.tag "button", .attrSub (some "a") "class" "btn", .cls "button",
   .attrEq (some "input") "type" "submit"]

/-- `extractComprehensiveContent`, restricted to one element of the group:
headings, then qualifying text nodes, images, lists, buttons, forms, tables
and media, each in document order. -/
def extractContentOfElement (doc : Node) (element : Loc) : List ContentItem :=
  let headings :=
    (qsa doc element [.tag "h1", .tag "h2", .tag "h3", .tag "h4", .tag "h5",
      .tag "h6"]).map (fun h =>
        ContentItem.heading h (jsTrim h.node.textContent) h.node.tag
          (jsParseIntNat (h.node.tag.drop 1)))
  let texts :=
    (qsa doc element [.tag "p", .tag "div", .tag "span"]).filterMap (fun t =>
      let text := jsTrim t.node.textContent
      if text.length > 15 &&
          (qsa doc t [.tag "img", .tag "video", .tag "iframe", .tag "button",
            .tag "a"]).isEmpty then
        some (ContentItem.text t text)
      else none)
  let images :=
    (qsa doc element [.tag "img"]).map (fun img =>
      ContentItem.image img (jsOptOr (img.node.getAttr "src") "")
        (jsOptOr (img.node.getAttr "alt") "")
        (img.node.getAttr "width") (img.node.getAttr "height"))
  let lists :=
    (qsa doc element [.tag "ul", .tag "ol"]).filterMap (fun list =>
      let items := (qsa doc list [.tag "li"]).map (fun li =>
        jsTrim li.node.textContent)
      if !items.isEmpty then
        some (ContentItem.list list items (list.node.tag = "ol"))
      else none)
  let buttons :=
    (qsa doc element buttonSelectors).filterMap (fun btn =>
      let text := jsTrim btn.node.textContent
      if text.length > 0 then
        some (ContentItem.button btn text
          (jsOptOr (btn.node.getAttr "href")
            (jsOptOr (btn.node.getAttr "data-href") "#"))
          (determineButtonStyle btn))
      else none)
  let forms :=
    (qsa doc element [.tag "form"]).filterMap (fun form =>
      let inputs := (qsa doc form [.tag "input", .tag "textarea",
        .tag "select"]).map (fun input =>
          FormInput.mk (jsOptOr (input.node.getAttr "type") input.node.tag)
            (jsOptOr (input.node.getAttr "name") "")
            (jsOptOr (input.node.getAttr "placeholder") "")
            (input.node.hasAttr "required"))
      if !inputs.isEmpty then
        some (ContentItem.form form (jsOptOr (form.node.getAttr "action") "")
          (jsOptOr (form.node.getAttr "method") "post") inputs)
      else none)
  let tables :=
    (qsa doc element [.tag "table"]).filterMap (fun table =>
      let headers := (qsa doc table [.tag "th"]).map (fun th =>
        jsTrim th.node.textContent)
      let rows := (qsa doc table [.desc (.tag "tbody") (.tag "tr")]).map (fun tr =>
        (qsa doc tr [.tag "td"]).map (fun td => jsTrim td.node.textContent))
      if !headers.isEmpty || !rows.isEmpty then
        some (ContentItem.table table headers rows)
      else none)
  let media :=
    (qsa doc element [.tag "video", .tag "audio", .tag "iframe"]).map (fun m =>
      ContentItem.media m m.node.tag (jsOptOr (m.node.getAttr "src") "")
        (m.node.getAttr "width") (m.node.getAttr "height"))
  headings ++ texts ++ images ++ lists ++ buttons ++ forms ++ tables ++ media

/-- `extractComprehensiveContent` over the whole group. -/
def extractComprehensiveContent (doc : Node) (elements : List Loc) :
    List ContentItem :=
  elements.flatMap (extractContentOfElement doc)

/-! ## Layout inference (`analyzeLayoutStructure`) -/

/-- The `structure` record of `analyzeLayoutStructure`. -/
structure LayoutStructure where
  columns : Nat
  isGrid : Bool
  isFlex : Bool
  hasCards : Bool
  alignment : String
deriving DecidableEq, Repr

/-- Leading digit run of a character list, if nonempty. -/
def digitRun (cs : List Char) : Option Nat :=
  let ds := cs.takeWhile Char.isDigit
  if ds.isEmpty then none
  else some ((ds.map (fun c => c.toNat - 48)).foldl (fun acc d => acc * 10 + d) 0)

/-- First match of the JS regex `/col-(\d+)|grid-cols-(\d+)/`: scan positions
left to right, trying `col-(\d+)` then `grid-cols-(\d+)` at each position, and
return the numeric group of the first success. -/
def colMatchAux : List Char → Option Nat
  | [] => none
  | cs@(_ :: rest) =>
    if listIsPrefix "col-".toList cs then
      match digitRun (cs.drop 4) with
      | some n => some n
      | none => colMatchAux rest
    else if listIsPrefix "grid-cols-".toList cs then
      match digitRun (cs.drop 10) with
      | some n => some n
      | none => colMatchAux rest
    else colMatchAux rest

def colMatch (className : String) : Option Nat := colMatchAux className.toList

/-- One `elements.forEach` step of `analyzeLayoutStructure`.  (The unused
`computedStyle` local of the source is dropped.) -/
def layoutStep (doc : Node) (s : LayoutStructure) (element : Loc) :
    LayoutStructure :=
  let className := element.node.className
  let s :=
    if strIncludes className "grid" || strIncludes className "col-" then
      let s := { s with isGrid := true }
      match colMatch className with
      | some n => { s with columns := max s.columns n }
      | none => s
    else s
  let s :=
    if strIncludes className "flex" || strIncludes className "row" then
      { s with isFlex := true }
    else s
  let s :=
    if strIncludes className "card" || strIncludes className "panel" then
      { s with hasCards := true }
    else s
  let directChildren :=
    (childElems element).filter (fun child => hasSignificantContent doc child)
  { s with columns := max s.columns (min directChildren.length 4) }

/-- `analyzeLayoutStructure`. -/
def analyzeLayoutStructure (doc : Node) (elements : List Loc) :
    LayoutStructure :=
  elements.foldl (layoutStep doc)
    ⟨1, false, false, false, "left"⟩

/-! ## Output tree (`YOOthemeElement`) and the tree builder -/

/-- A `{text, href}` menu link record. -/
structure LinkItem where
  text : String
  href : String
deriving DecidableEq, Repr

/-- Values stored in `settings: Record<string, any>`.  `pct q` models the JS
template string `` `${q}%` `` where `q` is the computed JS number (see the
file header). -/
inductive SettingValue where
  | str (s : String)
  | pct (q : ℚ)
  | links (l : List LinkItem)
  | strs (l : List String)
  | grid (g : List (List String))
deriving DecidableEq, Repr

/-- `YOOthemeElement { type, settings, children? }`. -/
inductive YElem where
  | mk (type : String) (settings : List (String × SettingValue))
      (children : Option (List YElem))

def YElem.type : YElem → String
  | .mk t _ _ => t

def YElem.settings : YElem → List (String × SettingValue)
  | .mk _ s _ => s

def YElem.children : YElem → Option (List YElem)
  | .mk _ _ c => c

/-- Children list, `[]` when the `children` key is absent. -/
def YElem.kids (e : YElem) : List YElem := e.children.getD []

/-- Value stored under settings key `k`. -/
def YElem.setting (e : YElem) (k : String) : Option SettingValue :=
  (e.settings.find? (fun p => p.1 = k)).map (·.2)

/-- The row records produced by `organizeContentIntoRows`
(`{ columns, gap, alignment }`). -/
structure RowSpec where
  columns : List YElem
  gap : String
  alignment : String

/-- `content.slice(i, i + itemsPerRow)` chunking of the
`for (let i = 0; i < content.length; i += itemsPerRow)` loop.  For `n = 0`
the JS loop would not terminate; that case is unreachable
(`analyzeLayoutStructure` always returns `columns ≥ 1`, see
`analyzeLayoutStructure_columns_pos`) and is mapped to `[]`. -/
def chunkListAux (n : Nat) : Nat → List α → List (List α)
  | _, [] => []
  | 0, _ :: _ => []
  | fuel + 1, x :: xs =>
    if n = 0 then []
    else (x :: xs).take n :: chunkListAux n fuel ((x :: xs).drop n)

def chunkList (n : Nat) (l : List α) : List (List α) := chunkListAux n l.length l

/-- The form element's `content` template string, whitespace included. -/
def formHtml (action method : String) (inputs : List FormInput) : String :=
  "<form action=\"" ++ action ++ "\" method=\"" ++ method ++ "\">\n              " ++
    joinSep "\n" (inputs.map (fun input =>
      "<input type=\"" ++ input.type ++ "\" name=\"" ++ input.name ++
        "\" placeholder=\"" ++ input.placeholder ++ "\" " ++
        (if input.required then "required" else "") ++ ">")) ++
    "\n            </form>"

/-- `convertContentToYOOtheme`: the per-kind mapping to output elements.
The `default` branch is reached by `audio` media items, whose `content`
field is `undefined` (`item.content || ''` yields `""`). -/
def convertContentToYOOtheme (item : ContentItem) : YElem :=
  match item with
  | .heading _ content tag level =>
    .mk "heading"
      [("content", .str content), ("tag", .str tag),
       ("style", .str (if level ≤ 2 then "primary" else "default")),
       ("margin", .str "small")] none
  | .text _ content =>
    .mk "text" [("content", .str content), ("margin", .str "default")] none
  | .image _ src alt width height =>
    .mk "image"
      [("image", .str src), ("alt", .str alt),
       ("width", .str (jsOptOr width "auto")),
       ("height", .str (jsOptOr height "auto")),
       ("border", .str "rounded")] none
  | .list _ items ordered =>
    .mk "list"
      [("items", .strs items),
       ("style", .str (if ordered then "numbered" else "bullet")),
       ("marker", .str "default")] none
  | .button _ content href style =>
    .mk "button"
      [("content", .str content), ("link", .str href), ("style", .str style),
       ("size", .str "default")] none
  | .form _ action method inputs =>
    .mk "html" [("content", .str (formHtml action method inputs))] none
  | .table _ headers rows =>
    .mk "table"
      [("headers", .strs headers), ("rows", .grid rows),
       ("style", .str "striped")] none
  | .media _ tag src width height =>
    if tag = "video" || tag = "iframe" then
      .mk "video"
        [("source", .str src), ("width", .str (jsOptOr width "100%")),
         ("height", .str (jsOptOr height "auto"))] none
    else
      .mk "html" [("content", .str "")] none

/-- One column of a chunked row of `organizeContentIntoRows`: the item's
converted element wrapped in a column of width
`${100 / Math.max(rowContent.length, 1)}%` (`len` is the row length). -/
def columnOfItem (s : LayoutStructure) (len : Nat) (item : ContentItem) :
    YElem :=
  YElem.mk "column"
    [("width", .pct (100 / (max len 1 : ℚ))),
     ("alignment", .str s.alignment)]
    (some [convertContentToYOOtheme item])

/-- One chunked row of `organizeContentIntoRows`. -/
def rowOfChunk (s : LayoutStructure) (rowContent : List ContentItem) : RowSpec :=
  RowSpec.mk (rowContent.map (columnOfItem s rowContent.length))
    (if s.isGrid then "large" else "default")
    (if s.isFlex then "center" else "stretch")

/-- The single full-width fallback row returned when the loop produced no
row. -/
def fallbackRow (content : List ContentItem) : RowSpec :=
  RowSpec.mk
    [YElem.mk "column" [("width", .str "100%")]
      (some (content.map convertContentToYOOtheme))]
    "default" "stretch"

/-- `organizeContentIntoRows`.  Chunks the flat content list into rows of
`structure.columns` items; each item becomes its own column. -/
def organizeContentIntoRows (content : List ContentItem) (s : LayoutStructure) :
    List RowSpec :=
  let rows := (chunkList s.columns content).map (rowOfChunk s)
  if !rows.isEmpty then rows else [fallbackRow content]

/-- `determineSectionStyle`. -/
def determineSectionStyle (elements : List Loc) (index : Nat) : String :=
  let hasHero := elements.any (fun el =>
    strIncludes el.node.className "hero" ||
    strIncludes el.node.className "banner" ||
    strIncludes el.node.className "jumbotron")
  if hasHero then "hero"
  else if index = 0 then "primary"
  else if index % 2 = 0 then "default"
  else "muted"

/-- `determinePadding`. -/
def determinePadding (doc : Node) (elements : List Loc) : String :=
  let hasLargeContent := elements.any (fun el =>
    (jsTrim el.node.textContent).length > 500 ||
      (qsa doc el [.tag "img", .tag "video"]).length > 2)
  if hasLargeContent then "large" else "default"

/-- Inner check of `extractBackgroundStyle` for one element/prefix pair:
returns early with a style only when one of the three known tones occurs. -/
def bgCheckClass (className bgClass : String) : Option String :=
  if strIncludes className bgClass then
    if strIncludes className "dark" then some "dark"
    else if strIncludes className "light" then some "light"
    else if strIncludes className "primary" then some "primary"
    else none
  else none

/-- `extractBackgroundStyle`. -/
def extractBackgroundStyle (elements : List Loc) : String :=
  let bgClasses := ["bg-", "background-", "section-"]
  (elements.findSome? (fun element =>
    bgClasses.findSome? (bgCheckClass element.node.className))).getD "default"

/-- `createAdvancedContentSection`. -/
def createAdvancedContentSection (doc : Node) (elements : List Loc)
    (index : Nat) : YElem :=
  let allContent := extractComprehensiveContent doc elements
  let layoutStructure := analyzeLayoutStructure doc elements
  let rows := organizeContentIntoRows allContent layoutStructure
  let children := rows.map (fun row =>
    YElem.mk "row"
      [("gap", .str (jsStrOr row.gap "default")),
       ("alignment", .str (jsStrOr row.alignment "stretch"))]
      (some row.columns))
  .mk "section"
    [("style", .str (determineSectionStyle elements index)),
     ("padding", .str (determinePadding doc elements)),
     ("margin", .str "default"),
     ("background", .str (extractBackgroundStyle elements))]
    (some children)

/-- The links collected by `createHeaderSection` / `createFooterSection`:
anchor text (trimmed, `|| ''`) and `href` attribute (`|| '#'`). -/
def anchorLinks (doc : Node) (l : Loc) : List LinkItem :=
  (qsa doc l [.tag "a"]).map (fun a =>
    LinkItem.mk (jsStrOr (jsTrim a.node.textContent) "")
      (jsOptOr (a.node.getAttr "href") "#"))

/-- `createHeaderSection`: one row, one full-width column, one menu whose
items come from the first `nav` descendant when present, else from the
element itself. -/
def createHeaderSection (doc : Node) (element : Loc) : YElem :=
  let nav := (qsel doc element [.tag "nav"]).getD element
  let links := anchorLinks doc nav
  .mk "header"
    [("layout", .str "stacked"), ("background", .str "primary"),
     ("padding", .str "default")]
    (some [.mk "row" []
      (some [.mk "column" [("width", .str "100%")]
        (some [.mk "menu"
          [("menu", .str "mainmenu"), ("style", .str "nav"),
           ("items", .links links)] none])])])

/-- `createFooterSection`: one row, one full-width column holding a centered
text element with the footer's trimmed text, followed by a footer menu iff
the footer contains at least one anchor. -/
def createFooterSection (doc : Node) (element : Loc) : YElem :=
  let footerText := jsStrOr (jsTrim element.node.textContent) ""
  let links := anchorLinks doc element
  .mk "footer"
    [("style", .str "secondary"), ("padding", .str "default")]
    (some [.mk "row" []
      (some [.mk "column" [("width", .str "100%")]
        (some ([.mk "text"
          [("content", .str footerText), ("align", .str "center")] none] ++
          (if links.length > 0 then
            [YElem.mk "menu"
              [("style", .str "footer"), ("items", .links links)] none]
          else [])))])])

/-! ## Top level: `parseHtmlToSections`, `extractAssets`,
`convertWebsiteToJoomla` -/

/-- Indexed body-fallback sections.  In the source,
`sections.push(createAdvancedContentSection([content], index + sections.length))`
re-reads `sections.length` on every iteration, so with `base` sections already
present the `i`-th pushed section receives index `i + (base + i) = base + 2 i`. -/
def bodyFallbackSections (doc : Node) (base : Nat) (bodyContent : List Loc) :
    List YElem :=
  (withIdx 0 bodyContent).map (fun p =>
    createAdvancedContentSection doc [p.2] (base + 2 * p.1))

/-- `parseHtmlToSections`. -/
def parseHtmlToSections (doc : Node) : List YElem :=
  let headerSecs : List YElem :=
    match qsaDoc doc headerSelectors with
    | [] => []
    | h :: _ => [createHeaderSection doc h]
  let groupedContent :=
    groupContentByVisualSections doc (discoverContentElements doc)
  let contentSecs :=
    (withIdx 0 groupedContent).map (fun p =>
      createAdvancedContentSection doc p.2 p.1)
  let sections := headerSecs ++ contentSecs
  let sections :=
    if sections.length ≤ 1 then
      sections ++ bodyFallbackSections doc sections.length (extractBodyContent doc)
    else sections
  let footerSecs : List YElem :=
    match qsaDoc doc footerSelectors with
    | [] => []
    | f :: _ => [createFooterSection doc f]
  sections ++ footerSecs

/-! ### Asset extraction -/

/-- A character allowed inside the `url(...)` capture group
`[^'")\s]+` of `extractAssets`'s regexes. -/
def isUrlChar (c : Char) : Bool :=
  c ≠ '\'' && c ≠ '"' && c ≠ ')' && !c.isWhitespace

/-- Match of `['"]?([^'")\s]+)['"]?\)` at the head of `cs` (the part of the
`url(...)` regexes after the literal `url(`).  Returns the captured group and
the characters following the match.  The regex' backtracking admits no other
outcome: the capture is the maximal run of allowed characters, and the match
succeeds only if it is followed by `)` directly or through one quote. -/
def matchUrlBody (cs : List Char) : Option (String × List Char) :=
  let afterQuote :=
    match cs with
    | '\'' :: rest => rest
    | '"' :: rest => rest
    | _ => cs
  let run := afterQuote.takeWhile isUrlChar
  let rest := afterQuote.drop run.length
  if run.isEmpty then none
  else
    match rest with
    | ')' :: tail => some (String.mk run, tail)
    | '\'' :: ')' :: tail => some (String.mk run, tail)
    | '"' :: ')' :: tail => some (String.mk run, tail)
    | _ => none

/-- Global scan for `/url\(['"]?([^'")\s]+)['"]?\)/g`: at each position try the
pattern; on success continue after the match, else advance one character.
`fuel` bounds the recursion (`fuel = cs.length` at the top call suffices,
since every step consumes at least one character). -/
def scanUrlsAux : Nat → List Char → List String
  | 0, _ => []
  | _ + 1, [] => []
  | fuel + 1, cs@(_ :: rest) =>
    if listIsPrefix "url(".toList cs then
      match matchUrlBody (cs.drop 4) with
      | some (g, tail) => g :: scanUrlsAux fuel tail
      | none => scanUrlsAux fuel rest
    else scanUrlsAux fuel rest

/-- All captures of the global `url(...)` regex over a CSS text. -/
def scanUrls (css : String) : List String :=
  scanUrlsAux css.toList.length css.toList

/-- First match of `/background-image:\s*url\(['"]?([^'")\s]+)['"]?\)/` in an
inline style attribute: at each position the literal `background-image:`, then
whitespace, then the `url(...)` pattern. -/
def bgImageMatchAux : Nat → List Char → Option String
  | 0, _ => none
  | _ + 1, [] => none
  | fuel + 1, cs@(_ :: rest) =>
    if listIsPrefix "background-image:".toList cs then
      let afterWs := (cs.drop 17).dropWhile Char.isWhitespace
      if listIsPrefix "url(".toList afterWs then
        match matchUrlBody (afterWs.drop 4) with
        | some (g, _) => some g
        | none => bgImageMatchAux fuel rest
      else bgImageMatchAux fuel rest
    else bgImageMatchAux fuel rest

def bgImageMatch (style : String) : Option String :=
  bgImageMatchAux style.toList.length style.toList

/-- The raw image-URL occurrence list of `extractAssets`, in collection order:
`<img src>` values, then first `background-image` URLs of inline styles, then
all `url(...)` references of `<style>` blocks.  Empty `src` attributes are
falsy and skipped. -/
def imageUrlOccurrences (doc : Node) : List String :=
  let imgSrcs := (qsaDoc doc [.tag "img"]).filterMap (fun img =>
    match img.node.getAttr "src" with
    | some src => if src ≠ "" then some src else none
    | none => none)
  let bgUrls := (qsaDoc doc [.univ]).filterMap (fun el =>
    match el.node.getAttr "style" with
    | some style =>
      if style ≠ "" && strIncludes style "background-image" then
        bgImageMatch style
      else none
    | none => none)
  let styleUrls := (qsaDoc doc [.tag "style"]).flatMap (fun styleEl =>
    scanUrls styleEl.node.textContent)
  imgSrcs ++ bgUrls ++ styleUrls

/-- JS `Set` accumulation: keep the first occurrence of each string,
in insertion order. -/
def setInsert (acc : List String) (u : String) : List String :=
  if u ∈ acc then acc else acc ++ [u]

/-- `img.split('/').pop()`: the segment after the last `/`. -/
def lastSegment (u : String) : String :=
  ⟨((splitOnChar '/' u.data).getLastD [])⟩

/-- The per-URL rewrite of `extractAssets`:
`/media/converted/${img.split('/').pop() || 'image.jpg'}`. -/
def rewriteImageUrl (u : String) : String :=
  "/media/converted/" ++ jsStrOr (lastSegment u) "image.jpg"

/-- The fixed YOOtheme compatibility stylesheet block appended by
`extractAssets` (the tail of the `joomlaCSS` template literal). -/
def yoothemeCompatCss : String :=
  "\n\n/* YOOtheme compatibility styles */\n" ++
  ".uk-section \x7b padding: 60px 0; \x7d\n" ++
  ".uk-container \x7b max-width: 1200px; margin: 0 auto; padding: 0 15px; \x7d\n" ++
  ".uk-grid \x7b display: flex; flex-wrap: wrap; margin-left: -15px; \x7d\n" ++
  ".uk-grid > * \x7b padding-left: 15px; \x7d\n" ++
  ".uk-width-1-2 \x7b width: 50%; \x7d\n" ++
  ".uk-width-1-3 \x7b width: 33.333%; \x7d\n" ++
  ".uk-width-1-4 \x7b width: 25%; \x7d\n" ++
  ".uk-text-center \x7b text-align: center; \x7d\n" ++
  ".uk-margin \x7b margin-bottom: 20px; \x7d\n    "

/-- The `assets` record. -/
structure Assets where
  images : List String
  styles : String
deriving DecidableEq, Repr

/-- `extractAssets`. -/
def extractAssets (doc : Node) : Assets :=
  let images := (imageUrlOccurrences doc).foldl setInsert []
  let styleTexts := (qsaDoc doc [.tag "style"]).filterMap (fun style =>
    let cssText := style.node.textContent
    if jsTrim cssText ≠ "" then some cssText else none)
  let importLines :=
    (qsaDoc doc [.attrEq (some "link") "rel" "stylesheet"]).filterMap (fun link =>
      match link.node.getAttr "href" with
      | some href =>
        if href ≠ "" then some ("@import url('" ++ href ++ "');") else none
      | none => none)
  let bodyStyle :=
    match qselDoc doc [.tag "body"] with
    | some body => jsOptOr (body.node.getAttr "style") ""
    | none => ""
  let bodyLines := if bodyStyle ≠ "" then ["body \x7b " ++ bodyStyle ++ " \x7d"] else []
  let styles := styleTexts ++ importLines ++ bodyLines
  let joomlaCSS :=
    "\n/* Converted from original website */\n" ++
    joinSep "\n\n" styles ++ yoothemeCompatCss
  Assets.mk (images.map rewriteImageUrl) joomlaCSS

/-- `builder_config`. -/
structure BuilderConfig where
  sections : List YElem

/-- The `yootheme` record. -/
structure Yootheme where
  template : String
  version : String
  builder_config : BuilderConfig

/-- The `JoomlaConversion` result record. -/
structure JoomlaConversion where
  joomla_version : String
  yootheme : Yootheme
  assets : Assets

/-- `convertWebsiteToJoomla`, over the parsed document (the `markdown`,
`content` and `metadata` fields of `WebsiteData` are unused by the source). -/
def convertWebsiteToJoomla (doc : Node) : JoomlaConversion :=
  JoomlaConversion.mk "4.3+"
    (Yootheme.mk "YOOtheme Pro" "3.2+" (BuilderConfig.mk (parseHtmlToSections doc)))
    (extractAssets doc)

/-! ## Accessors used by the theorems -/

/-- The sections list of a conversion. -/
def sectionsOf (doc : Node) : List YElem :=
  (convertWebsiteToJoomla doc).yootheme.builder_config.sections

/-- Section at index `i` (dummy element out of range). -/
def secAt (doc : Node) (i : Nat) : YElem := (sectionsOf doc).getD i (.mk "" [] none)

/-! ## Concrete documents used by counterexamples and witnesses -/

/-- Parse result of `"<body></body>"`: empty body, no header/footer. -/
def emptyBodyDoc : Node := .elem "html" [] [.elem "head" [] [], .elem "body" [] []]

/-- Parse result of the spec's end-to-end scenario HTML
`<header><nav><a href="/">Home</a></nav></header><main><section><h1>Welcome</h1>
<p>This is a long enough paragraph to qualify as significant content.</p>
</section></main><footer>© 2024</footer>`. -/
def c4doc : Node :=
  .elem "html" [] [.elem "head" [] [],
    .elem "body" [] [
      .elem "header" [] [.elem "nav" [] [.elem "a" [("href", "/")] [.text "Home"]]],
      .elem "main" [] [.elem "section" [] [
        .elem "h1" [] [.text "Welcome"],
        .elem "p" [] [.text "This is a long enough paragraph to qualify as significant content."]]],
      .elem "footer" [] [.text "© 2024"]]]

/-- First child of the two-column container of `structDoc`. -/
def structChildA : Node := .elem "div" [] [
  .elem "h3" [] [.text "Col A heading"],
  .elem "p" [] [.text "First column paragraph with plenty of text."]]

/-- Second child of the two-column container of `structDoc`. -/
def structChildB : Node := .elem "div" [] [
  .elem "h3" [] [.text "Col B heading"],
  .elem "p" [] [.text "Second column paragraph with plenty of text."]]

/-- A document whose second discovered group is a `div.section.col-2`
container with exactly two significant direct children (the hypotheses of the
structural-mapping clause of §4.4). -/
def structDoc : Node :=
  .elem "html" [] [.elem "head" [] [],
    .elem "body" [] [
      .elem "section" [] [.elem "p" [] [.text "Another standalone paragraph with enough text here."]],
      .elem "div" [("class", "section col-2")] [structChildA, structChildB]]]

/-- The located `div.section.col-2` container of `structDoc`. -/
def structContainer : Loc :=
  ⟨[1, 1], .elem "div" [("class", "section col-2")] [structChildA, structChildB]⟩

/-- The located first child of the container of `structDoc`. -/
def structChildALoc : Loc := ⟨[1, 1, 0], structChildA⟩

/-- A document with an element whose class is `col-7` (explicit framework
column count outside the 2–4 range). -/
def col7doc : Node :=
  .elem "html" [] [.elem "head" [] [], .elem "body" [] [.elem "div" [("class", "col-7")] []]]

/-- The located `div.col-7` of `col7doc`. -/
def col7loc : Loc := ⟨[1, 0], .elem "div" [("class", "col-7")] []⟩

/-- A document whose second discovered group is a three-column grid
(`grid-cols-3` with three significant heading children). -/
def grid3doc : Node :=
  .elem "html" [] [.elem "head" [] [],
    .elem "body" [] [
      .elem "section" [] [.elem "p" [] [.text "Another standalone paragraph with enough text here."]],
      .elem "div" [("class", "section grid-cols-3")] [
        .elem "h2" [] [.text "First grid heading cell text"],
        .elem "h2" [] [.text "Second grid heading cell text"],
        .elem "h2" [] [.text "Third grid heading cell text"]]]]

/-- A document whose header contains an anchor without an `href` attribute. -/
def noHrefDoc : Node :=
  .elem "html" [] [.elem "head" [] [],
    .elem "body" [] [.elem "header" [] [.elem "nav" [] [.elem "a" [] [.text "Home"]]]]]

/-- A document with an image whose `src` ends in `/` (empty basename). -/
def slashImgDoc : Node :=
  .elem "html" [] [.elem "head" [] [],
    .elem "body" [] [.elem "img" [("src", "images/")] []]]

/-- A document whose header has an anchor outside its `nav` element. -/
def navOutDoc : Node :=
  .elem "html" [] [.elem "head" [] [],
    .elem "body" [] [.elem "header" [] [
      .elem "a" [("href", "/x")] [.text "X"],
      .elem "nav" [] [.elem "a" [("href", "/")] [.text "Home"]]]]]

/-- The located header element of `navOutDoc`. -/
def navOutHeader : Loc :=
  ⟨[1, 0], .elem "header" [] [
    .elem "a" [("href", "/x")] [.text "X"],
    .elem "nav" [] [.elem "a" [("href", "/")] [.text "Home"]]]⟩

/-! ## Claim C1 -/

/-- Claim C1, counterexample.  The claim states that for `"<body></body>"`
(no header/footer, no content) the conversion returns *zero* sections.  In
fact `groupContentByVisualSections` maps an empty element list to the single
empty group `[[]]` (`groups.length > 0 ? groups : [elements]`), so exactly one
(empty) content section is emitted: the sections list has length 1 and is not
empty. -/
theorem claim_C1_counterexample :
    (sectionsOf emptyBodyDoc).length = 1 ∧ sectionsOf emptyBodyDoc ≠ [] := by
  refine ⟨rfl, ?_⟩
  intro h
  have h1 : (sectionsOf emptyBodyDoc).length = 1 := rfl
  rw [h] at h1
  exact absurd h1 (by decide)

/-- Claim C1, amended.  For the empty-body document the conversion does not
fail and returns exactly one section — an empty content section consisting of
one row with one empty full-width column — together with an empty image
list. -/
theorem claim_C1_amended :
    sectionsOf emptyBodyDoc =
      [.mk "section"
        [("style", .str "primary"), ("padding", .str "default"),
         ("margin", .str "default"), ("background", .str "default")]
        (some [.mk "row"
          [("gap", .str "default"), ("alignment", .str "stretch")]
          (some [.mk "column" [("width", .str "100%")] (some [])])])] ∧
    (extractAssets emptyBodyDoc).images = [] := ⟨rfl, rfl⟩

/-! ## Claim C4 -/

/-- Claim C4, counterexample.  The claim states the content section of the
end-to-end scenario has a *single* row whose single column contains the
heading followed by the text element.  In fact the inferred column count is 1,
so `organizeContentIntoRows` chunks the two content items into *two* rows of
one column each: the document does produce 3 sections, but the middle content
section has 2 rows, not 1. -/
theorem claim_C4_counterexample :
    (sectionsOf c4doc).length = 3 ∧
    (secAt c4doc 1).kids.length = 2 ∧ (2 : Nat) ≠ 1 := ⟨rfl, rfl, by decide⟩

/-- Claim C4, amended.  The scenario HTML produces exactly 3 sections — header
(menu item `Home → /`), one content section, footer (centered text
`© 2024`, no menu) — and the content section consists of *two* single-column
full-width rows: the first row's column holds the heading element
(`content = "Welcome"`, tag `h1`, style `primary`), the second row's column
holds the text element with the paragraph's text. -/
theorem claim_C4_amended :
    sectionsOf c4doc =
      [.mk "header"
        [("layout", .str "stacked"), ("background", .str "primary"),
         ("padding", .str "default")]
        (some [.mk "row" []
          (some [.mk "column" [("width", .str "100%")]
            (some [.mk "menu"
              [("menu", .str "mainmenu"), ("style", .str "nav"),
               ("items", .links [⟨"Home", "/"⟩])] none])])]),
       .mk "section"
        [("style", .str "primary"), ("padding", .str "default"),
         ("margin", .str "default"), ("background", .str "default")]
        (some [.mk "row"
          [("gap", .str "default"), ("alignment", .str "stretch")]
          (some [.mk "column"
            [("width", .pct (100 / (max 1 1 : ℚ))), ("alignment", .str "left")]
            (some [.mk "heading"
              [("content", .str "Welcome"), ("tag", .str "h1"),
               ("style", .str "primary"), ("margin", .str "small")] none])]),
         .mk "row"
          [("gap", .str "default"), ("alignment", .str "stretch")]
          (some [.mk "column"
            [("width", .pct (100 / (max 1 1 : ℚ))), ("alignment", .str "left")]
            (some [.mk "text"
              [("content", .str "This is a long enough paragraph to qualify as significant content."),
               ("margin", .str "default")] none])])]),
       .mk "footer"
        [("style", .str "secondary"), ("padding", .str "default")]
        (some [.mk "row" []
          (some [.mk "column" [("width", .str "100%")]
            (some [.mk "text"
              [("content", .str "© 2024"), ("align", .str "center")] none])])])] :=
  rfl

/-- Child element of the output tree at index `i` (dummy out of range). -/
def yKidAt (e : YElem) (i : Nat) : YElem := e.kids.getD i (.mk "" [] none)

/-! ## Claim C5 -/

/-- Claim C5, counterexample.  For `structDoc`, the second group's container has
inferred column count 2 equal to its number of significant direct children
(the claim's hypotheses).  The claim then demands a structural 1:1 mapping:
each direct child mapped to its own column, holding the content extracted
from just that child (child A yields 2 content items).  Instead the code
round-robin chunks the flat item list: the section has three rows and every
column holds exactly one converted item, so no column holds child A's two
items.  (`organizeContentIntoRows` has no structural path at all.) -/
theorem claim_C5_counterexample :
    (analyzeLayoutStructure structDoc [structContainer]).columns = 2 ∧
    ((childElems structContainer).filter
      (hasSignificantContent structDoc)).length = 2 ∧
    (secAt structDoc 1).kids.length = 3 ∧
    ((secAt structDoc 1).kids.all (fun r =>
      r.kids.all (fun c => c.kids.length = 1))) = true ∧
    ((extractComprehensiveContent structDoc [structChildALoc]).map
      convertContentToYOOtheme).length = 2 :=
  ⟨rfl, rfl, rfl, rfl, rfl⟩

/-! ## Claim C6 -/

/-- Claim C6, counterexample.  The claim states the explicit framework column
count is clamped to the 2–4 range.  The code applies no upper clamp to the
`col-N` / `grid-cols-N` match (`Math.max(structure.columns, parseInt(...))`):
a lone `div.col-7` yields column count 7 > 4. -/
theorem claim_C6_counterexample :
    (analyzeLayoutStructure col7doc [col7loc]).columns = 7 ∧ ¬(7 ≤ 4) :=
  ⟨rfl, by decide⟩

/-- What one element contributes to the final column count: the unclamped
framework match (0 when the `grid`/`col-` guard fails or the regex does not
match) joined with the significant-direct-children count capped at 4. -/
def layoutContrib (doc : Node) (el : Loc) : Nat :=
  let className := el.node.className
  let fw :=
    if strIncludes className "grid" || strIncludes className "col-" then
      (colMatch className).getD 0
    else 0
  max fw
    (min ((childElems el).filter
      (fun child => hasSignificantContent doc child)).length 4)

/-! ## Claim C7 -/

/-- Claim C7, counterexample.  The claim's fixed lookup demands width
`"33.3%"` for every column of a 3-column row.  For `grid3doc` the emitted
grid section has one row of three columns whose width value is the JS number
`100 / 3` — and `100/3 ≠ 33.3` (this also separates the IEEE double the code
computes, rendered `"33.333333333333336%"`, from the string `"33.3%"`).  The
gap half of the claim does hold here (`"large"`, grid-inferred). -/
theorem claim_C7_counterexample :
    (yKidAt (secAt grid3doc 1) 0).kids.length = 3 ∧
    (yKidAt (secAt grid3doc 1) 0).kids.map (fun c => c.setting "width") =
      [some (.pct (100 / 3)), some (.pct (100 / 3)), some (.pct (100 / 3))] ∧
    (yKidAt (secAt grid3doc 1) 0).setting "gap" = some (.str "large") ∧
    (100 : ℚ) / 3 ≠ 333 / 10 :=
  ⟨rfl, rfl, rfl, by norm_num⟩

/-! ## Claim C8 -/

/-- Claim C8, counterexample.  The claim states every attribute read defaults
to the empty string.  Anchor `href` reads default to `"#"`
(`a.getAttribute('href') || '#'`): a header anchor without `href` yields the
menu item `{text: "Home", href: "#"}`, not `href = ""`. -/
theorem claim_C8_counterexample :
    (yKidAt (yKidAt (yKidAt (secAt noHrefDoc 0) 0) 0) 0).setting "items" =
      some (.links [⟨"Home", "#"⟩]) ∧
    ("#" : String) ≠ "" := ⟨rfl, by decide⟩

/-! ## Claim C9 -/

/-- Claim C9, counterexample.  The claim states every collected URL is
rewritten to `/media/converted/<basename>`, basename being the segment after
the last `/`.  For a collected `src` of `"images/"` that basename is empty
and the code substitutes the fallback `'image.jpg'`
(`img.split('/').pop() || 'image.jpg'`), producing
`"/media/converted/image.jpg"` instead of the claimed
`"/media/converted/"`. -/
theorem claim_C9_counterexample :
    (extractAssets slashImgDoc).images = ["/media/converted/image.jpg"] ∧
    lastSegment "images/" = "" ∧
    ("/media/converted/image.jpg" : String) ≠ "/media/converted/" :=
  ⟨rfl, rfl, by decide⟩

/-! ## Claim C10 -/

/-- Claim C10, counterexample.  The claim states the header menu items are the
header's anchors.  `createHeaderSection` reads anchors from the first `nav`
descendant when one exists (`element.querySelector('nav') || element`): for a
header carrying an anchor outside its `nav`, the emitted items list only the
nav's anchor, although the header has two anchors. -/
theorem claim_C10_counterexample :
    (yKidAt (yKidAt (yKidAt (secAt navOutDoc 0) 0) 0) 0).setting "items" =
      some (.links [⟨"Home", "/"⟩]) ∧
    anchorLinks navOutDoc navOutHeader = [⟨"X", "/x"⟩, ⟨"Home", "/"⟩] ∧
    ([⟨"Home", "/"⟩] : List LinkItem) ≠ [⟨"X", "/x"⟩, ⟨"Home", "/"⟩] :=
  ⟨rfl, rfl, by decide⟩

/-! ## Claim C3: the accepted element set is an antichain -/

/-- Two located elements unrelated by DOM containment (in particular
distinct): neither is an ancestor-or-self of the other. -/
def Unrelated (a b : Loc) : Prop :=
  a.containsLoc b = false ∧ b.containsLoc a = false

/-- Folding `discoverStep` preserves pairwise unrelatedness: a candidate is
appended only when `isNestedElement` rejects a containment with every
already-accepted element. -/
theorem discover_foldl_pairwise (doc : Node) :
    ∀ (cands : List Loc) (acc : List Loc), acc.Pairwise Unrelated →
      (cands.foldl (discoverStep doc) acc).Pairwise Unrelated := by
  intro cands
  induction cands with
  | nil => intro acc h; exact h
  | cons el rest ih =>
    intro acc h
    simp only [List.foldl_cons]
    apply ih
    unfold discoverStep
    split
    · rename_i hcond
      have hnest : isNestedElement el acc = false := by
        cases hn : isNestedElement el acc
        · rfl
        · rw [Bool.and_eq_true] at hcond
          rw [hn] at hcond
          simp at hcond
      rw [List.pairwise_append]
      refine ⟨h, List.pairwise_singleton _ _, ?_⟩
      intro a ha b hb
      have hb' : b = el := by simpa using hb
      subst hb'
      unfold isNestedElement at hnest
      rw [List.any_eq_false] at hnest
      have := hnest a ha
      simp only [Bool.or_eq_true, not_or, Bool.not_eq_true] at this
      exact ⟨this.1, this.2⟩
    · exact h

/-- Claim C3, confirmed.  For every document, the accepted set of
`discoverContentElements` is an antichain of the DOM tree: no accepted
element contains (is an ancestor-or-self of) another accepted element, in
either direction — each candidate is rejected whenever it contains, or is
contained in, an already-accepted element. -/
theorem claim_C3_antichain (doc : Node) :
    (discoverContentElements doc).Pairwise Unrelated := by
  unfold discoverContentElements
  exact discover_foldl_pairwise doc _ [] (List.Pairwise.nil)

/-! ## Claim C2: structural invariant of the output tree -/

mutual
/-- The structural invariant of claim C2, checked recursively: section-like
nodes (`header`/`section`/`footer`) have a children list containing at least
one `row`; `row` nodes have at least one `column` child; `column` nodes have
a children list; all other (leaf) nodes carry no children key. -/
def structOk : YElem → Bool
  | .mk t _ ch =>
    if t = "header" || t = "section" || t = "footer" then
      match ch with
      | some cs => cs.any (fun c => c.type = "row") && structOkList cs
      | none => false
    else if t = "row" then
      match ch with
      | some cs => cs.any (fun c => c.type = "column") && structOkList cs
      | none => false
    else if t = "column" then
      match ch with
      | some cs => structOkList cs
      | none => false
    else
      match ch with
      | some _ => false
      | none => true

/-- `structOk` on every element of a list. -/
def structOkList : List YElem → Bool
  | [] => true
  | e :: es => structOk e && structOkList es
end

theorem structOkList_append (a b : List YElem) :
    structOkList (a ++ b) = (structOkList a && structOkList b) := by
  induction a with
  | nil => simp [structOkList]
  | cons e es ih => simp [structOkList, ih, Bool.and_assoc]

theorem structOkList_of_forall {l : List YElem}
    (h : ∀ e ∈ l, structOk e = true) : structOkList l = true := by
  induction l with
  | nil => rfl
  | cons e es ih =>
    simp only [structOkList, Bool.and_eq_true]
    exact ⟨h e (List.mem_cons_self e es), ih (fun x hx => h x (List.mem_cons_of_mem e hx))⟩

/-- Every mapped content item is a leaf (no `children` key) of a
non-container type, hence satisfies the invariant. -/
theorem convert_structOk (item : ContentItem) :
    structOk (convertContentToYOOtheme item) = true := by
  cases item <;> simp only [convertContentToYOOtheme] <;> try rfl
  split <;> rfl

theorem chunkAux_mem_ne_nil {α : Type} (n : Nat) :
    ∀ (fuel : Nat) (l : List α) (c : List α),
      c ∈ chunkListAux n fuel l → c ≠ [] := by
  intro fuel
  induction fuel with
  | zero => intro l c hc; cases l <;> simp [chunkListAux] at hc
  | succ fuel ih =>
    intro l c hc
    match l with
    | [] => simp [chunkListAux] at hc
    | x :: xs =>
      rw [chunkListAux] at hc
      split at hc
      · simp at hc
      · rename_i hn
        rcases List.mem_cons.mp hc with h | h
        · subst h
          match n, hn with
          | m + 1, _ => simp [List.take]
        · exact ih _ c h

theorem chunk_mem_ne_nil {α : Type} (n : Nat) (l : List α) (c : List α)
    (h : c ∈ chunkList n l) : c ≠ [] :=
  chunkAux_mem_ne_nil n l.length l c h

/-- The rows produced by `organizeContentIntoRows` are never empty, and every
row has a nonempty column list whose members are well-formed `column`
elements. -/
theorem organize_rows_ok (content : List ContentItem) (s : LayoutStructure) :
    organizeContentIntoRows content s ≠ [] ∧
    ∀ r ∈ organizeContentIntoRows content s,
      r.columns ≠ [] ∧ ∀ c ∈ r.columns, c.type = "column" ∧ structOk c = true := by
  unfold organizeContentIntoRows
  simp only []
  cases hch : (chunkList s.columns content).map (rowOfChunk s) with
  | nil =>
    simp only [hch, List.isEmpty_nil, Bool.not_true, Bool.false_eq_true,
      if_false]
    refine ⟨by simp, ?_⟩
    intro r hr
    have hr' : r = fallbackRow content := by simpa using hr
    subst hr'
    refine ⟨by simp [fallbackRow], ?_⟩
    intro c hc
    have hc' : c = YElem.mk "column" [("width", .str "100%")]
        (some (content.map convertContentToYOOtheme)) := by
      simpa [fallbackRow] using hc
    subst hc'
    refine ⟨rfl, ?_⟩
    show structOkList (content.map convertContentToYOOtheme) = true
    exact structOkList_of_forall (fun e he => by
      rcases List.mem_map.mp he with ⟨item, _, hrfl⟩
      subst hrfl
      exact convert_structOk item)
  | cons r0 rs =>
    simp only [hch, List.isEmpty_cons, Bool.not_false, if_true]
    refine ⟨by simp, ?_⟩
    intro r hr
    rw [← hch] at hr
    rcases List.mem_map.mp hr with ⟨chunk, hchunk, hrfl⟩
    subst hrfl
    constructor
    · intro h
      have hne := chunk_mem_ne_nil s.columns content chunk hchunk
      simp only [rowOfChunk] at h
      exact hne (List.map_eq_nil_iff.mp h)
    · intro c hc
      simp only [rowOfChunk] at hc
      rcases List.mem_map.mp hc with ⟨item, _, hcrfl⟩
      subst hcrfl
      exact ⟨rfl, by simp [columnOfItem, structOk, structOkList, convert_structOk]⟩

/-- `structOk` unfolded at a `section` node. -/
theorem structOk_section_some (st : List (String × SettingValue))
    (cs : List YElem) :
    structOk (.mk "section" st (some cs)) =
      (cs.any (fun c => c.type = "row") && structOkList cs) := rfl

/-- `structOk` unfolded at a `row` node. -/
theorem structOk_row_some (st : List (String × SettingValue)) (cs : List YElem) :
    structOk (.mk "row" st (some cs)) =
      (cs.any (fun c => c.type = "column") && structOkList cs) := rfl

/-- Content sections satisfy the invariant: the row list is nonempty (head of
type `row`) and every row carries a nonempty list of well-formed columns. -/
theorem section_structOk (doc : Node) (elements : List Loc) (index : Nat) :
    structOk (createAdvancedContentSection doc elements index) = true := by
  unfold createAdvancedContentSection
  obtain ⟨hne, hrows⟩ := organize_rows_ok
    (extractComprehensiveContent doc elements)
    (analyzeLayoutStructure doc elements)
  dsimp only
  rw [structOk_section_some, Bool.and_eq_true]
  constructor
  · rw [List.any_eq_true]
    obtain ⟨r, hr⟩ := List.exists_mem_of_ne_nil _ hne
    exact ⟨_, List.mem_map_of_mem _ hr, by simp [YElem.type]⟩
  · apply structOkList_of_forall
    intro e he
    rcases List.mem_map.mp he with ⟨r, hr, hrfl⟩
    subst hrfl
    obtain ⟨hcne, hcols⟩ := hrows r hr
    rw [structOk_row_some, Bool.and_eq_true]
    constructor
    · rw [List.any_eq_true]
      obtain ⟨c, hc⟩ := List.exists_mem_of_ne_nil _ hcne
      exact ⟨c, hc, by simp [(hcols c hc).1]⟩
    · exact structOkList_of_forall (fun c hc => (hcols c hc).2)

/-- Header sections satisfy the invariant. -/
theorem header_structOk (doc : Node) (h : Loc) :
    structOk (createHeaderSection doc h) = true := rfl

/-- Footer sections satisfy the invariant (whether or not the footer menu is
appended). -/
theorem footer_structOk (doc : Node) (f : Loc) :
    structOk (createFooterSection doc f) = true := by
  unfold createFooterSection
  dsimp only
  by_cases h : (anchorLinks doc f).length > 0
  · rw [if_pos h]; rfl
  · rw [if_neg h]; rfl

/-- Claim C2, confirmed.  For every input document, every node of the emitted
sections tree satisfies the structural invariant: each `header`/`section`/
`footer` node has a children list containing at least one `row`, each `row`
has at least one `column` child, and every leaf element carries no children
key. -/
theorem claim_C2_structural_invariant (doc : Node) :
    structOkList (sectionsOf doc) = true := by
  show structOkList (parseHtmlToSections doc) = true
  unfold parseHtmlToSections
  dsimp only
  rw [structOkList_append, Bool.and_eq_true]
  have hcontent : structOkList
      ((withIdx 0 (groupContentByVisualSections doc (discoverContentElements doc))).map
        (fun p => createAdvancedContentSection doc p.2 p.1)) = true := by
    apply structOkList_of_forall
    intro e he
    rcases List.mem_map.mp he with ⟨p, _, hrfl⟩
    subst hrfl
    exact section_structOk doc p.2 p.1
  have hheader : structOkList
      (match qsaDoc doc headerSelectors with
       | [] => ([] : List YElem)
       | h :: _ => [createHeaderSection doc h]) = true := by
    cases qsaDoc doc headerSelectors with
    | nil => rfl
    | cons h rest => simp [structOkList, header_structOk]
  constructor
  · split
    · rw [structOkList_append, Bool.and_eq_true]
      constructor
      · rw [structOkList_append, Bool.and_eq_true]
        exact ⟨hheader, hcontent⟩
      · apply structOkList_of_forall
        intro e he
        unfold bodyFallbackSections at he
        rcases List.mem_map.mp he with ⟨p, _, hrfl⟩
        subst hrfl
        exact section_structOk doc _ _
    · rw [structOkList_append, Bool.and_eq_true]
      exact ⟨hheader, hcontent⟩
  · cases qsaDoc doc footerSelectors with
    | nil => rfl
    | cons f rest => simp [structOkList, footer_structOk]

/-! ## Claim C6, amended: column-count characterization -/

/-- One `layoutStep` changes the column count exactly by joining in the
element's contribution. -/
theorem layoutStep_columns (doc : Node) (s : LayoutStructure) (el : Loc) :
    (layoutStep doc s el).columns = max s.columns (layoutContrib doc el) := by
  unfold layoutStep layoutContrib
  dsimp only
  by_cases h1 :
      (strIncludes el.node.className "grid" ||
        strIncludes el.node.className "col-") = true
  · simp only [if_pos h1]
    cases hm : colMatch el.node.className with
    | some n =>
      simp only [hm, Option.getD_some]
      simp only [apply_ite LayoutStructure.columns, ite_self]
      omega
    | none =>
      simp only [hm, Option.getD_none]
      simp only [apply_ite LayoutStructure.columns, ite_self]
      omega
  · simp only [if_neg h1]
    simp only [apply_ite LayoutStructure.columns, ite_self]
    omega

theorem analyze_foldl_columns (doc : Node) :
    ∀ (els : List Loc) (s : LayoutStructure),
      (els.foldl (layoutStep doc) s).columns =
        els.foldl (fun a el => max a (layoutContrib doc el)) s.columns := by
  intro els
  induction els with
  | nil => intro s; rfl
  | cons el rest ih =>
    intro s
    simp only [List.foldl_cons]
    rw [ih, layoutStep_columns]

/-- The closed form of the inferred column count (used by the claim C6
theorem and by the positivity lemma below). -/
theorem analyze_columns_characterization (doc : Node) (els : List Loc) :
    (analyzeLayoutStructure doc els).columns =
      els.foldl (fun a el => max a (layoutContrib doc el)) 1 := by
  unfold analyzeLayoutStructure
  exact analyze_foldl_columns doc els _

/-- Claim C6, amended.  Layout inference does not clamp the explicit
framework column count to the 2–4 range, and it does not give it priority
over the child-count heuristic: the final column count is the maximum,
over all elements of the group, of the unclamped `col-N`/`grid-cols-N` match
and the significant-direct-children count capped at 4, with base value 1
(a single column when no signal is present). -/
theorem claim_C6_amended (doc : Node) (els : List Loc) :
    (analyzeLayoutStructure doc els).columns =
      els.foldl (fun a el => max a (layoutContrib doc el)) 1 :=
  analyze_columns_characterization doc els

/-- The inferred column count is always at least 1 (so the chunking loop of
`organizeContentIntoRows` terminates in the source). -/
theorem analyzeLayoutStructure_columns_pos (doc : Node) (els : List Loc) :
    1 ≤ (analyzeLayoutStructure doc els).columns := by
  rw [analyze_columns_characterization]
  have : ∀ (l : List Loc) (a : Nat),
      a ≤ l.foldl (fun a el => max a (layoutContrib doc el)) a := by
    intro l
    induction l with
    | nil => intro a; exact Nat.le_refl a
    | cons el rest ih =>
      intro a
      simp only [List.foldl_cons]
      exact Nat.le_trans (Nat.le_max_left _ _) (ih _)
  exact this els 1

/-! ## Claim C5, amended: assembly always chunks the flat content list -/

theorem chunkAux_zero {α : Type} (fuel : Nat) (l : List α) :
    chunkListAux 0 fuel l = [] := by
  cases fuel <;> cases l <;> simp [chunkListAux]

theorem chunkAux_flatten {α : Type} (n : Nat) (hn : n ≠ 0) :
    ∀ (fuel : Nat) (l : List α), l.length ≤ fuel →
      (chunkListAux n fuel l).flatten = l := by
  intro fuel
  induction fuel with
  | zero =>
    intro l hl
    have : l = [] := List.eq_nil_of_length_eq_zero (Nat.le_zero.mp hl)
    subst this
    rfl
  | succ fuel ih =>
    intro l hl
    match l with
    | [] => rfl
    | x :: xs =>
      rw [chunkListAux, if_neg hn]
      rw [List.flatten_cons]
      rw [ih (((x :: xs).drop n))
        (by
          simp only [List.length_drop, List.length_cons]
          simp only [List.length_cons] at hl
          omega)]
      exact List.take_append_drop n (x :: xs)

theorem chunkList_flatten {α : Type} (n : Nat) (hn : n ≠ 0) (l : List α) :
    (chunkList n l).flatten = l :=
  chunkAux_flatten n hn l.length l (Nat.le_refl _)

theorem chunkAux_mem_length_le {α : Type} (n : Nat) :
    ∀ (fuel : Nat) (l : List α) (c : List α),
      c ∈ chunkListAux n fuel l → c.length ≤ n := by
  intro fuel
  induction fuel with
  | zero => intro l c hc; cases l <;> simp [chunkListAux] at hc
  | succ fuel ih =>
    intro l c hc
    match l with
    | [] => simp [chunkListAux] at hc
    | x :: xs =>
      rw [chunkListAux] at hc
      split at hc
      · simp at hc
      · rcases List.mem_cons.mp hc with h | h
        · subst h
          exact List.length_take_le n (x :: xs)
        · exact ih _ c h

/-- The concatenation, over all rows then all columns, of a section's column
contents, in order. -/
def sectionFlatContent (sec : YElem) : List YElem :=
  sec.kids.flatMap (fun r => r.kids.flatMap YElem.kids)

theorem kids_mk_some (t : String) (st : List (String × SettingValue))
    (cs : List YElem) : (YElem.mk t st (some cs)).kids = cs := rfl

theorem flatMap_map_eq_flatten_map {α β : Type} (l : List (List α)) (f : α → β) :
    l.flatMap (fun c => c.map f) = l.flatten.map f := by
  induction l with
  | nil => rfl
  | cons c cs ih => simp [List.flatMap_cons, List.flatten_cons, ih]

/-- The columns built from a chunk, flattened, give back the chunk's
converted items (whatever the width denominator `len`). -/
theorem colsFlat (s : LayoutStructure) (len : Nat) :
    ∀ chunk : List ContentItem,
      (chunk.map (columnOfItem s len)).flatMap YElem.kids =
        chunk.map convertContentToYOOtheme := by
  intro chunk
  induction chunk with
  | nil => rfl
  | cons i is ih =>
    simp only [List.map_cons, List.flatMap_cons, columnOfItem, kids_mk_some]
    simp only [columnOfItem, kids_mk_some] at ih
    rw [ih]
    rfl

/-- Claim C5, amended.  Row/column assembly never performs the claimed
structural per-child mapping, whatever the inferred column count and the
container's children: the section's columns, read across rows in order, hold
exactly the flat extracted content-item list, i.e. `organizeContentIntoRows`
round-robin chunks the flat list into rows of at most `columnCount` items
(each chunked row has one item per column). -/
theorem claim_C5_amended (doc : Node) (els : List Loc) (index : Nat) :
    sectionFlatContent (createAdvancedContentSection doc els index) =
      (extractComprehensiveContent doc els).map convertContentToYOOtheme ∧
    ((createAdvancedContentSection doc els index).kids.all (fun r =>
      r.kids.length ≤ max (analyzeLayoutStructure doc els).columns 1)) = true := by
  have hn : (analyzeLayoutStructure doc els).columns ≠ 0 := by
    have := analyzeLayoutStructure_columns_pos doc els
    omega
  unfold createAdvancedContentSection organizeContentIntoRows
  dsimp only
  cases hch : (chunkList (analyzeLayoutStructure doc els).columns
      (extractComprehensiveContent doc els)).map
        (rowOfChunk (analyzeLayoutStructure doc els)) with
  | nil =>
    simp only [hch, List.isEmpty_nil, Bool.not_true, Bool.false_eq_true, if_false]
    constructor
    · simp [sectionFlatContent, fallbackRow, kids_mk_some]
    · simp [fallbackRow, kids_mk_some]
  | cons r0 rs =>
    simp only [hch, List.isEmpty_cons, Bool.not_false, if_true]
    rw [← hch]
    constructor
    · simp only [sectionFlatContent, kids_mk_some, List.flatMap_map]
      calc ((chunkList (analyzeLayoutStructure doc els).columns
              (extractComprehensiveContent doc els)).flatMap (fun a =>
                (rowOfChunk (analyzeLayoutStructure doc els) a).columns.flatMap
                  YElem.kids))
          = (chunkList (analyzeLayoutStructure doc els).columns
              (extractComprehensiveContent doc els)).flatMap
                (fun chunk => chunk.map convertContentToYOOtheme) := by
            apply List.flatMap_congr
            intro chunk _
            simp only [rowOfChunk]
            exact colsFlat _ _ chunk
        _ = (extractComprehensiveContent doc els).map convertContentToYOOtheme := by
            rw [flatMap_map_eq_flatten_map,
              chunkList_flatten _ hn]
    · rw [kids_mk_some, List.all_eq_true]
      intro r hr
      rcases List.mem_map.mp hr with ⟨row, hrow, hrfl⟩
      subst hrfl
      rcases List.mem_map.mp hrow with ⟨chunk, hchunk, hrowfl⟩
      subst hrowfl
      simp only [kids_mk_some, rowOfChunk, List.length_map, decide_eq_true_eq]
      exact Nat.le_trans
        (chunkAux_mem_length_le _ _ _ chunk hchunk)
        (Nat.le_max_left _ 1)

/-! ## Claim C7, amended -/

theorem chunkList_ne_nil {α : Type} (n : Nat) (hn : n ≠ 0) (l : List α)
    (hl : l ≠ []) : chunkList n l ≠ [] := by
  match l with
  | [] => exact absurd rfl hl
  | x :: xs =>
    show chunkListAux n (x :: xs).length (x :: xs) ≠ []
    rw [List.length_cons, chunkListAux, if_neg hn]
    exact List.cons_ne_nil _ _

/-- Claim C7, amended.  For nonempty content (and the always-satisfied positive
column count), every emitted row is a chunked row: its gap is `"large"`
exactly when the layout was inferred as grid (`"default"` otherwise), its
column list is nonempty, and every column's width is the JS number
`100 / rowLength` percent — which agrees with the claimed lookup for rows of
1, 2 or 4 columns (`100%`, `50%`, `25%`) but is `100/3` (rendered
`33.333333333333336%`), not `33.3%`, for 3 columns.  For empty content the
single fallback row (one `"100%"` column, gap `"default"`) is emitted
instead. -/
theorem claim_C7_amended (content : List ContentItem) (s : LayoutStructure) :
    (organizeContentIntoRows [] s = [fallbackRow []]) ∧
    (s.columns ≠ 0 → content ≠ [] →
      ∀ r ∈ organizeContentIntoRows content s,
        r.gap = (if s.isGrid then "large" else "default") ∧
        r.columns ≠ [] ∧
        r.columns.map (fun c => c.setting "width") =
          r.columns.map
            (fun _ => some (.pct (100 / (max r.columns.length 1 : ℚ))))) := by
  constructor
  · rfl
  · intro hn hne r hr
    unfold organizeContentIntoRows at hr
    dsimp only at hr
    cases hch : chunkList s.columns content with
    | nil => exact absurd hch (chunkList_ne_nil s.columns hn content hne)
    | cons c0 crest =>
      rw [hch] at hr
      simp only [List.map_cons, List.isEmpty_cons, Bool.not_false, if_true] at hr
      rw [← List.map_cons] at hr
      rcases List.mem_map.mp hr with ⟨chunk, hchunk, hrfl⟩
      subst hrfl
      refine ⟨rfl, ?_, ?_⟩
      · have hcne : chunk ≠ [] := by
          apply chunk_mem_ne_nil s.columns content
          rw [hch]
          exact hchunk
        simp only [rowOfChunk]
        intro hmapnil
        exact hcne (List.map_eq_nil_iff.mp hmapnil)
      · simp only [rowOfChunk, List.map_map, List.length_map]
        apply List.map_congr_left
        intro item _
        rfl

/-- A concrete content item used by witnesses. -/
def demoItem : ContentItem := .text ⟨[], .text ""⟩ "hello"

/-- A concrete grid layout structure used by witnesses. -/
def demoStruct : LayoutStructure := ⟨2, true, false, false, "left"⟩

theorem claim_C7_amended_witness :
    (rowOfChunk demoStruct [demoItem]).gap = "large" ∧
    (rowOfChunk demoStruct [demoItem]).columns ≠ [] ∧
    (rowOfChunk demoStruct [demoItem]).columns.map (fun c => c.setting "width") =
      (rowOfChunk demoStruct [demoItem]).columns.map
        (fun _ => some (.pct (100 /
          (max (rowOfChunk demoStruct [demoItem]).columns.length 1 : ℚ)))) := by
  have hmem : rowOfChunk demoStruct [demoItem] ∈
      organizeContentIntoRows [demoItem] demoStruct := by
    rw [show organizeContentIntoRows [demoItem] demoStruct =
      [rowOfChunk demoStruct [demoItem]] from rfl]
    exact List.mem_singleton_self _
  have h := (claim_C7_amended [demoItem] demoStruct).2
    (by decide) (by simp) _ hmem
  simpa [demoStruct] using h

/-! ## Claim C9, amended -/

/-- First-occurrence deduplication, keeping collection order (the observable
behaviour of the JS `Set` accumulation). -/
def dedupFirst : List String → List String
  | [] => []
  | x :: xs => x :: dedupFirst (xs.filter (fun y => y ≠ x))
termination_by l => l.length
decreasing_by
  simp only [List.length_cons]
  exact Nat.lt_succ_of_le (List.length_filter_le _ _)

theorem dedupFirst_subset : ∀ (l : List String) (a : String),
    a ∈ dedupFirst l → a ∈ l := by
  intro l
  induction l using dedupFirst.induct with
  | case1 => intro a ha; simp [dedupFirst] at ha
  | case2 x xs ih =>
    intro a ha
    rw [dedupFirst] at ha
    rcases List.mem_cons.mp ha with h | h
    · exact h ▸ List.mem_cons_self _ _
    · exact List.mem_cons_of_mem x (List.mem_of_mem_filter (ih a h))

theorem dedupFirst_nodup : ∀ l : List String, (dedupFirst l).Nodup := by
  intro l
  induction l using dedupFirst.induct with
  | case1 => simp [dedupFirst]
  | case2 x xs ih =>
    rw [dedupFirst]
    refine List.Nodup.cons ?_ ih
    intro hx
    have := dedupFirst_subset _ x hx
    have := List.of_mem_filter this
    simp at this

theorem filter_notin_append (xs acc : List String) (x : String) :
    (xs.filter (fun u => u ∉ acc)).filter (fun y => y ≠ x) =
      xs.filter (fun u => u ∉ acc ++ [x]) := by
  induction xs with
  | nil => rfl
  | cons a as ih =>
    by_cases h1 : a ∈ acc
    · simp [List.filter_cons, h1, ih, Bool.and_comm]
    · by_cases h2 : a = x
      · subst h2
        simp [List.filter_cons, h1, ih, Bool.and_comm]
      · simp [List.filter_cons, h1, h2, ih, Bool.and_comm]

theorem foldl_setInsert_eq :
    ∀ (l acc : List String),
      l.foldl setInsert acc =
        acc ++ dedupFirst (l.filter (fun u => u ∉ acc)) := by
  intro l
  induction l with
  | nil => intro acc; simp [dedupFirst]
  | cons x xs ih =>
    intro acc
    simp only [List.foldl_cons]
    by_cases hx : x ∈ acc
    · have hsi : setInsert acc x = acc := by
        unfold setInsert
        rw [if_pos hx]
      rw [hsi, ih]
      congr 1
      simp [List.filter_cons, hx]
    · have hsi : setInsert acc x = acc ++ [x] := by
        unfold setInsert
        rw [if_neg hx]
      rw [hsi, ih]
      rw [List.filter_cons, if_pos (by simpa using hx)]
      rw [dedupFirst, filter_notin_append]
      simp [List.append_assoc]

/-- Claim C9, amended.  The output image list is exactly the raw occurrence
list (img `src`s, then inline `background-image` URLs, then `<style>`
`url(...)` references) deduplicated by first occurrence of the raw URL
string, each rewritten to `/media/converted/<basename>` with basename falling
back to `image.jpg` when the segment after the last `/` is empty; in
particular a source URL collected several times contributes exactly one
entry (the deduplicated list has no duplicate raw URL). -/
theorem claim_C9_amended (doc : Node) :
    (extractAssets doc).images =
      (dedupFirst (imageUrlOccurrences doc)).map rewriteImageUrl ∧
    (dedupFirst (imageUrlOccurrences doc)).Nodup := by
  constructor
  · show ((imageUrlOccurrences doc).foldl setInsert []).map rewriteImageUrl = _
    rw [foldl_setInsert_eq]
    simp
  · exact dedupFirst_nodup _

/-! ## Claim C8, amended -/

/-- Claim C8, amended.  The conversion is total over parsed documents: for
*every* document tree it returns a well-formed `JoomlaConversion` record
(the Lean embedding is a total function; fixed fields shown below).
Defensive defaults hold at every read site, but they are per-site sentinels,
not uniformly the empty string: anchor/button text, image `src`/`alt`, form
`action` and input `name`/`placeholder` default to `""`, a missing anchor
`href` maps to `"#"`, a missing form `method` to `"post"`, a missing input
`type` to the input's tag name, missing (or empty, JS-falsy) image
`width`/`height` to `"auto"`/`"auto"`, and missing video dimensions to
`"100%"`/`"auto"`.  The form and image conjuncts run the extraction itself
on a group element containing an attribute-less `<form><input></form>` and
an attribute-less `<img>`; the anchor conjuncts run the link collection on a
`nav` whose anchor lacks `href` and on one whose anchor lacks text. -/
theorem claim_C8_amended :
    (∀ doc : Node, (convertWebsiteToJoomla doc).joomla_version = "4.3+" ∧
      (convertWebsiteToJoomla doc).yootheme.template = "YOOtheme Pro" ∧
      (convertWebsiteToJoomla doc).yootheme.version = "3.2+") ∧
    (∀ (e : Loc) (src alt : String),
      convertContentToYOOtheme (.image e src alt none none) =
        .mk "image" [("image", .str src), ("alt", .str alt),
          ("width", .str "auto"), ("height", .str "auto"),
          ("border", .str "rounded")] none) ∧
    (∀ (e : Loc) (src alt : String),
      convertContentToYOOtheme (.image e src alt (some "") (some "")) =
        .mk "image" [("image", .str src), ("alt", .str alt),
          ("width", .str "auto"), ("height", .str "auto"),
          ("border", .str "rounded")] none) ∧
    (∀ (e : Loc) (src : String),
      convertContentToYOOtheme (.media e "video" src none none) =
        .mk "video" [("source", .str src), ("width", .str "100%"),
          ("height", .str "auto")] none) ∧
    (∀ (doc : Node) (p : List Nat),
      anchorLinks doc ⟨p, .elem "nav" [] [.elem "a" [] [.text "Home"]]⟩ =
        [⟨"Home", "#"⟩]) ∧
    (∀ (doc : Node) (p : List Nat),
      anchorLinks doc ⟨p, .elem "nav" [] [.elem "a" [("href", "/x")] []]⟩ =
        [⟨"", "/x"⟩]) ∧
    (∀ (doc : Node) (p : List Nat),
      extractContentOfElement doc
          ⟨p, .elem "div" [] [.elem "form" [] [.elem "input" [] []]]⟩ =
        [.form ⟨p ++ [0], .elem "form" [] [.elem "input" [] []]⟩ "" "post"
          [⟨"input", "", "", false⟩]]) ∧
    (∀ (doc : Node) (p : List Nat),
      extractContentOfElement doc ⟨p, .elem "div" [] [.elem "img" [] []]⟩ =
        [.image ⟨p ++ [0], .elem "img" [] []⟩ "" "" none none]) :=
  ⟨fun _ => ⟨rfl, rfl, rfl⟩, fun _ _ _ => rfl, fun _ _ _ => rfl,
   fun _ _ => rfl, fun _ _ => rfl, fun _ _ => rfl, fun _ _ => rfl,
   fun _ _ => rfl⟩

/-! ## Claim C10, amended -/

/-- Claim C10, amended.  Every emitted header section is one row with one
`"100%"`-width column holding a single menu element whose items are the
anchors of the header's *first `nav` descendant* when one exists, and of the
header element itself otherwise.  Every emitted footer section is one row
with one `"100%"`-width column holding a text element with the footer's full
trimmed text, followed by a footer menu if and only if the footer contains
at least one anchor. -/
theorem claim_C10_amended (doc : Node) (h f : Loc) :
    (createHeaderSection doc h).kids.map YElem.type = ["row"] ∧
    (yKidAt (createHeaderSection doc h) 0).kids.map YElem.type = ["column"] ∧
    (yKidAt (yKidAt (createHeaderSection doc h) 0) 0).setting "width" =
      some (.str "100%") ∧
    (yKidAt (yKidAt (createHeaderSection doc h) 0) 0).kids.map YElem.type =
      ["menu"] ∧
    (yKidAt (yKidAt (yKidAt (createHeaderSection doc h) 0) 0) 0).setting
      "items" = some (.links (anchorLinks doc ((qsel doc h [.tag "nav"]).getD h))) ∧
    (createFooterSection doc f).kids.map YElem.type = ["row"] ∧
    (yKidAt (createFooterSection doc f) 0).kids.map YElem.type = ["column"] ∧
    (yKidAt (yKidAt (createFooterSection doc f) 0) 0).setting "width" =
      some (.str "100%") ∧
    (yKidAt (yKidAt (createFooterSection doc f) 0) 0).kids.map YElem.type =
      "text" :: (if (anchorLinks doc f).length > 0 then ["menu"] else []) ∧
    (yKidAt (yKidAt (yKidAt (createFooterSection doc f) 0) 0) 0).setting
      "content" = some (.str (jsStrOr (jsTrim f.node.textContent) "")) := by
  refine ⟨rfl, rfl, rfl, rfl, rfl, rfl, rfl, rfl, ?_, ?_⟩
  · unfold createFooterSection
    dsimp only
    by_cases hc : (anchorLinks doc f).length > 0
    · rw [if_pos hc, if_pos hc]; rfl
    · rw [if_neg hc, if_neg hc]; rfl
  · unfold createFooterSection
    dsimp only
    by_cases hc : (anchorLinks doc f).length > 0
    · rw [if_pos hc]; rfl
    · rw [if_neg hc]; rfl
